import Mathlib

/-!
Shallow embedding of the NeuralNet repository (src/neuralnet/dense.py and
src/src/network.py).  Machine floats are modelled as exact rationals `ℚ`;
numpy 2-D arrays over batches become `Matrix (Fin rows) (Fin cols) ℚ`
with examples as columns, following the repository's array convention.
-/

open Matrix

namespace NeuralNet

/-- Elementwise (numpy `*`) product of two equally shaped arrays. -/
def eltwise {m n : ℕ} (A B : Matrix (Fin m) (Fin n) ℚ) : Matrix (Fin m) (Fin n) ℚ :=
  Matrix.of fun i j => A i j * B i j

/-- numpy `np.sum(A, axis=1, keepdims=True)`: sum over the trailing (batch)
axis, keeping a column shape `(m, 1)`. -/
def rowSum {m n : ℕ} (A : Matrix (Fin m) (Fin n) ℚ) : Matrix (Fin m) (Fin 1) ℚ :=
  Matrix.of fun i _ => ∑ j, A i j

/-- External regularizer contract (spec §6): it exposes a gradient
contribution `derivative()` (field `deriv`) matching the bound parameter's
shape, and a `param` accessor returning the referenced parameter array. -/
structure Regularizer (m n : ℕ) where
  deriv : Matrix (Fin m) (Fin n) ℚ
  param : Matrix (Fin m) (Fin n) ℚ

/-- The state of a `Dense` layer (src/neuralnet/dense.py) that
`backward_step` reads and writes: weights `w`, bias `b`, gradient buffers
`dw`/`db`, the cached pre-activation `z` of the last forward call, the bound
activation contract `g` (first argument is the `derivative` keyword), and the
optional regularizers.  Type indices: `o` = output_dim, `i` = input dim,
`b` = batch size of the cached forward pass. -/
structure Dense (o i b : ℕ) where
  w : Matrix (Fin o) (Fin i) ℚ
  bias : Matrix (Fin o) (Fin 1) ℚ
  dw : Matrix (Fin o) (Fin i) ℚ
  db : Matrix (Fin o) (Fin 1) ℚ
  z : Matrix (Fin o) (Fin b) ℚ
  g : Bool → Matrix (Fin o) (Fin b) ℚ → Matrix (Fin o) (Fin b) ℚ
  kernel_regularizer : Option (Regularizer o i)
  bias_regularizer : Option (Regularizer o 1)

/-- `Dense.backward_step(a_next, w_prev, error_prev)` from
src/neuralnet/dense.py lines 54–71, translated line by line.
`d` is the downstream layer's output dimension.  A failed `assert`
(AssertionError) is modelled as `none`; otherwise the call returns the
updated layer together with the returned `error` array.  Note the source
asserts `kernel_regularizer.param == w` (after augmenting `dw`) but performs
no such assertion in the bias-regularizer branch. -/
def Dense.backward_step {o i b d : ℕ} (L : Dense o i b)
    (a_next : Matrix (Fin i) (Fin b) ℚ)
    (w_prev : Matrix (Fin d) (Fin o) ℚ)
    (error_prev : Matrix (Fin d) (Fin b) ℚ) :
    Option (Dense o i b × Matrix (Fin o) (Fin b) ℚ) :=
  let batch_size : ℚ := (b : ℚ)
  let derivative := L.g true L.z
  let error := eltwise (w_prev.transpose * error_prev) derivative
  let dw1 := (1 / batch_size) • (error * a_next.transpose)
  let db1 := (1 / batch_size) • rowSum error
  let dwOpt : Option (Matrix (Fin o) (Fin i) ℚ) :=
    match L.kernel_regularizer with
    | none => some dw1
    | some kr =>
        let dw2 := dw1 + (1 / batch_size) • kr.deriv
        if kr.param = L.w then some dw2 else none
  match dwOpt with
  | none => none
  | some dw3 =>
      let db3 :=
        match L.bias_regularizer with
        | none => db1
        | some br => db1 + (1 / batch_size) • br.deriv
      some ({ L with dw := dw3, db := db3 }, error)

/-- Result of evaluating an activation contract in derivative mode at the
final layer (spec §6): an elementwise derivative array for ordinary
activations, or the full (out, out, batch) Jacobian tensor for the
softmax-class activation. -/
inductive ActDeriv (o n : ℕ) where
  | elem (m : Matrix (Fin o) (Fin n) ℚ)
  | jac (t : Fin o → Fin o → Fin n → ℚ)

/-- The output-layer error of `Network._backprop_last_layer`
(src/src/network.py lines 155–158): the branch is on `self[-1].g is softmax`.
Under the activation contract only the softmax-class activation returns a
Jacobian, so the mismatched combinations cannot arise; they are modelled as
`none` (a shape failure in the numeric kernel).  The einsum
`np.einsum('in,jin->jn', derivative_loss, derivative_layer)` is
deltaL[j,n] = Σ_i dLoss[i,n] · dAct[j,i,n]; the other branch is
`derivative_layer * derivative_loss`, elementwise. -/
def lastLayerDelta {o n : ℕ} (isSoftmax : Bool)
    (dLoss : Matrix (Fin o) (Fin n) ℚ) (dAct : ActDeriv o n) :
    Option (Matrix (Fin o) (Fin n) ℚ) :=
  match isSoftmax, dAct with
  | true, .jac t => some (Matrix.of fun j k => ∑ i, dLoss i k * t j i k)
  | false, .elem m => some (eltwise m dLoss)
  | _, _ => none

/-- `Network._backprop_last_layer(x, y)` (src/src/network.py lines 137–163).
`dLoss` and `dAct` are the values returned by the external loss contract
(`derivative_loss_fct(ypred=self[-1].a, ytrue=y, average_examples=False)`)
and the final layer's activation contract (`self[-1].g(z, derivative=True)`).
`aPrev` is the second-to-last layer's cached activation `self[-2].a`, and the
batch dimension `n` is `x.shape[-1]`.  The source writes the final layer's
`dw`/`db` directly and performs no regularizer handling here. -/
def backprop_last_layer {o p n : ℕ} (last : Dense o p n) (isSoftmax : Bool)
    (dLoss : Matrix (Fin o) (Fin n) ℚ) (dAct : ActDeriv o n)
    (aPrev : Matrix (Fin p) (Fin n) ℚ) :
    Option (Dense o p n × Matrix (Fin o) (Fin n) ℚ) :=
  match lastLayerDelta isSoftmax dLoss dAct with
  | none => none
  | some deltaL =>
      let batch_size : ℚ := (n : ℚ)
      some ({ last with
              dw := (1 / batch_size) • (deltaL * aPrev.transpose),
              db := (1 / batch_size) • rowSum deltaL }, deltaL)

/-- Modelled from the spec: §4.2 steps 3–4 applied to the final layer,
including the (1/batch_size)-scaled regularizer contributions whenever
regularizers are bound.  This follows the spec's words and exists only for
comparison with the source's `backprop_last_layer`. -/
def specLastLayerGrads {o p n : ℕ} (last : Dense o p n)
    (deltaL : Matrix (Fin o) (Fin n) ℚ) (aPrev : Matrix (Fin p) (Fin n) ℚ) :
    Matrix (Fin o) (Fin p) ℚ × Matrix (Fin o) (Fin 1) ℚ :=
  let batch_size : ℚ := (n : ℚ)
  let dw0 := (1 / batch_size) • (deltaL * aPrev.transpose)
  let db0 := (1 / batch_size) • rowSum deltaL
  ((match last.kernel_regularizer with
    | none => dw0
    | some kr => dw0 + (1 / batch_size) • kr.deriv),
   (match last.bias_regularizer with
    | none => db0
    | some br => db0 + (1 / batch_size) • br.deriv))

/-- `Network.gradient_check(x, ytrue, eps, layer_id, weight_idx)`
(src/src/network.py lines 241–258).  The only network state the call mutates
is the single element `self[layer_id].w[weight_idx]`, so the batch-averaged
loss `self.get_loss(x, ytrue, average_examples=True)` is modelled as a
function `loss` of that element's current value, with `none` modelling an
exception raised during a loss evaluation.  The result is the pair
(returned gradient if the call completes, value of the weight element when
control leaves the function).  The source has no try/finally: the restore
line `self[layer_id].w[weight_idx] = w_original` runs only after both loss
evaluations return, so an exception propagates with the element still
perturbed. -/
def gradient_check (loss : ℚ → Option ℚ) (eps w_original : ℚ) :
    Option ℚ × ℚ :=
  match loss (w_original + 1 * eps) with
  | none => (none, w_original + 1 * eps)
  | some lplus =>
      match loss (w_original + (-1) * eps) with
      | none => (none, w_original + (-1) * eps)
      | some lminus =>
          let cost := 1 * lplus + (-1) * lminus
          (some (cost / (2 * eps)), w_original)

/-- `Network.gradient_checks(x, ytrue, checks, eps)` (src/src/network.py
lines 211–238): the loop `for check in range(checks)` samples one
(layer_id, weight_idx) pair per iteration from the random stream `sample`
and records the numerical gradient together with the backprop gradient
`self[layer_id].dw[weight_idx]` (both abstracted into `gradOf`).  The model
returns the list of per-iteration records. -/
def gradient_checks_runs (sample : ℕ → ℕ × ℕ) (gradOf : ℕ × ℕ → ℚ × ℚ)
    (checks : ℕ) : List ((ℕ × ℕ) × ℚ × ℚ) :=
  (List.range checks).map fun c => (sample c, gradOf (sample c))

/-- The mutable state of `Network` that `fit`'s training loop reads and
writes across epochs: the learning rate and the epoch counter. -/
structure FitState where
  lr : ℚ
  epoch : ℕ
deriving DecidableEq

/-- One observable operation performed by `Network.fit`'s loop body, in
program order.  `partitionBatches size` records the call
`misc.minibatches(x, y, batch_size=size)` (misc is external to src);
`gradChecks m checks eps` records `self.gradient_checks(*minibatch,
eps=10**(-6), checks=3)` on minibatch `m`. -/
inductive FitEvent where
  | lrDecay (newLr : ℚ)
  | partitionBatches (size : ℕ)
  | trainOnBatch (m : ℕ)
  | recordLoss (m : ℕ)
  | gradChecks (m : ℕ) (checks : ℕ) (eps : ℚ)
  | updateWeights (m : ℕ)
  | epochInc (newEpoch : ℕ)
deriving DecidableEq

/-- The body of `fit`'s minibatch loop (src/src/network.py lines 81–92) for
minibatch index `m`: train on the batch, record its loss, run the stochastic
gradient check when `gradients_to_check_each_epoch` (modelled as `gc`, with
`0` standing for None/falsy) is truthy and `m == 1`, then update weights. -/
def minibatchEvents (gc m : ℕ) : List FitEvent :=
  [FitEvent.trainOnBatch m, FitEvent.recordLoss m] ++
    (if gc ≠ 0 ∧ m = 1 then [FitEvent.gradChecks m 3 (1 / 1000000)] else []) ++
    [FitEvent.updateWeights m]

/-- The operations of one executed epoch of `fit` (src/src/network.py lines
75–110): decay the learning rate to `lrNew`, partition via
`misc.minibatches(x, y, batch_size=1000)` (the literal 1000 from line 80),
run the minibatch loop over the `M` minibatches the external partitioner
returned, and finally increment the epoch counter to `epNew`. -/
def epochEvents (gc M : ℕ) (lrNew : ℚ) (epNew : ℕ) : List FitEvent :=
  FitEvent.lrDecay lrNew :: FitEvent.partitionBatches 1000 ::
    (((List.range M).map (minibatchEvents gc)).flatten ++ [FitEvent.epochInc epNew])

/-- The epoch loop `for epoch in range(1, epochs)` of `fit`, run for `k`
remaining iterations: returns the final state and the per-epoch lists of
operations. -/
def fitAux (gc M : ℕ) : ℕ → FitState → FitState × List (List FitEvent)
  | 0, s => (s, [])
  | Nat.succ k, s =>
      let lrNew := s.lr * (993 / 1000)
      let epNew := s.epoch + 1
      let evs := epochEvents gc M lrNew epNew
      let rest := fitAux gc M k { lr := lrNew, epoch := epNew }
      (rest.1, evs :: rest.2)

set_option linter.unusedVariables false in
/-- `Network.fit(x, y, epochs, batch_size, ...)` (src/src/network.py lines
59–110).  The loop header `for epoch in range(1, epochs)` executes
`epochs - 1` iterations (none when `epochs = 1`).  `batch_size` is the
caller's argument, which the source never reads — line 80 passes the literal
1000 to the external `misc.minibatches`.  `M` is the number of minibatches
that external call returns, and `gc` models
`gradients_to_check_each_epoch` (0 = None/falsy). -/
def fit (s : FitState) (epochs batch_size gc M : ℕ) :
    FitState × List (List FitEvent) :=
  fitAux gc M (epochs - 1) s

/-- Sizes passed to `misc.minibatches`, in order of occurrence. -/
def partitionSizes (evs : List FitEvent) : List ℕ :=
  evs.filterMap fun e =>
    match e with
    | FitEvent.partitionBatches k => some k
    | _ => none

/-- Minibatch indices trained on, in order of occurrence. -/
def trainSteps (evs : List FitEvent) : List ℕ :=
  evs.filterMap fun e =>
    match e with
    | FitEvent.trainOnBatch m => some m
    | _ => none

/-- Learning-rate values written by decay steps, in order of occurrence. -/
def lrDecays (evs : List FitEvent) : List ℚ :=
  evs.filterMap fun e =>
    match e with
    | FitEvent.lrDecay v => some v
    | _ => none

/-- The stochastic gradient-check invocations recorded in a trace: for each,
the minibatch index it ran on, the `checks` argument and the `eps` argument
of the `gradient_checks` call. -/
def gradCheckRecords (evs : List FitEvent) : List (ℕ × ℕ × ℚ) :=
  evs.filterMap fun e =>
    match e with
    | FitEvent.gradChecks m c eps => some (m, c, eps)
    | _ => none

/-- A layer object as seen by the network container: only its duck-typed
`info` attribute matters here (`some "batch"` would mark a batch-norm
layer; absent attributes are `none`). -/
structure LayerObj where
  info : Option String
deriving DecidableEq

/-- The `Network` container state relevant to layer bookkeeping
(src/src/network.py lines 13–20, 40–50): the `self.layers` dict (an
association list), the ordered layer sequence (Network subclasses `list`,
so `add` appends to it), and the `batch_norm` flag, unset before the first
`compile`. -/
structure NetworkShell where
  layersDict : List (String × LayerObj)
  seq : List LayerObj
  batch_norm : Option Bool

/-- Attribute lookup `l.info` when `l` is a dict key (a `str`): Python
strings have no `info` attribute, so the lookup raises AttributeError,
modelled as `none`. -/
def strAttrInfo (_k : String) : Option String := none

/-- `compile`'s detection loop (src/src/network.py lines 44–50):
`for l in self.layers` iterates the dict's keys; the body reads `l.info`
inside `try/except AttributeError: pass`, so a failed lookup leaves the
accumulator unchanged. -/
def dictDetect (keys : List String) : Bool :=
  keys.foldl
    (fun acc k =>
      match strAttrInfo k with
      | some v => if v = "batch" then true else acc
      | none => acc)
    false

/-- The operations on the network container that touch the fields of
`NetworkShell`: `add(layer)` and `compile(loss, lr)`.  No other method of
the source references `self.layers`. -/
inductive NetOp where
  | add (l : LayerObj)
  | compile

/-- The effect of one container operation: `add` only appends to the ordered
sequence (line 41); `compile` recomputes `batch_norm` from the dict's keys
(lines 44–50). -/
def netStep (s : NetworkShell) : NetOp → NetworkShell
  | NetOp.add l => { s with seq := s.seq ++ [l] }
  | NetOp.compile =>
      { s with batch_norm := some (dictDetect (s.layersDict.map Prod.fst)) }

/-- `Network.__init__` (src/src/network.py lines 13–20): an empty
`self.layers` dict and an ordered sequence holding only the starting input
layer. -/
def initNetwork : NetworkShell :=
  { layersDict := [], seq := [{ info := none }], batch_norm := none }

/-- A 1×1 rational matrix with the given entry, for concrete instances. -/
def m11 (q : ℚ) : Matrix (Fin 1) (Fin 1) ℚ := Matrix.of fun _ _ => q

/-- A concrete prepared dense layer with no regularizers (identity-like
activation contract), used to instantiate the generic backward-step
theorem. -/
def denseNoReg : Dense 1 1 1 :=
  { w := m11 1, bias := m11 0, dw := m11 0, db := m11 0, z := m11 1,
    g := fun _ m => m, kernel_regularizer := none, bias_regularizer := none }

/-- A concrete kernel regularizer whose `param` equals `denseReg.w`. -/
def kregOk : Regularizer 1 1 := { deriv := m11 2, param := m11 1 }

/-- A concrete bias regularizer whose `param` (2) differs from
`denseReg.bias` (0): a stale binding the source never checks. -/
def bregStale : Regularizer 1 1 := { deriv := m11 1, param := m11 2 }

/-- A concrete prepared dense layer with a consistent kernel regularizer and
a stale bias regularizer. -/
def denseReg : Dense 1 1 1 :=
  { w := m11 1, bias := m11 0, dw := m11 0, db := m11 0, z := m11 1,
    g := fun _ m => m, kernel_regularizer := some kregOk,
    bias_regularizer := some bregStale }

/-- A concrete final layer with a consistent, nonzero kernel regularizer
bound, used against the output-layer gradient claims. -/
def denseLast : Dense 1 1 1 :=
  { w := m11 1, bias := m11 0, dw := m11 0, db := m11 0, z := m11 1,
    g := fun _ m => m, kernel_regularizer := some kregOk,
    bias_regularizer := none }

/-- Claim C1: `Dense.backward_step` computes
error = (w_downstreamᵀ · error_downstream) ⊙ g'(z), sets
dw = (1/B) · error · a_upstreamᵀ and db = (1/B) · rowwise_sum(error) with B
the trailing dimension of `a_upstream`, and returns the error signal (layer
without bound regularizers, the case the claim's quoted steps describe). -/
theorem dense_backward_step_no_reg {o i b d : ℕ} (L : Dense o i b)
    (a_next : Matrix (Fin i) (Fin b) ℚ)
    (w_prev : Matrix (Fin d) (Fin o) ℚ)
    (error_prev : Matrix (Fin d) (Fin b) ℚ)
    (hk : L.kernel_regularizer = none) (hb : L.bias_regularizer = none) :
    L.backward_step a_next w_prev error_prev =
      some ({ L with
              dw := (1 / (b : ℚ)) •
                (eltwise (w_prev.transpose * error_prev) (L.g true L.z) * a_next.transpose),
              db := (1 / (b : ℚ)) •
                rowSum (eltwise (w_prev.transpose * error_prev) (L.g true L.z)) },
            eltwise (w_prev.transpose * error_prev) (L.g true L.z)) := by
  simp [Dense.backward_step, hk, hb]

/-- Witness for claim C1: the backward step of a concrete 1×1 layer with
batch size 1 and no regularizers. -/
theorem dense_backward_step_no_reg_witness :
    denseNoReg.backward_step (m11 1) (m11 1) (m11 1) =
      some ({ denseNoReg with
              dw := (1 / ((1 : ℕ) : ℚ)) •
                (eltwise ((m11 1).transpose * (m11 1)) (denseNoReg.g true denseNoReg.z) *
                  (m11 1).transpose),
              db := (1 / ((1 : ℕ) : ℚ)) •
                rowSum (eltwise ((m11 1).transpose * (m11 1)) (denseNoReg.g true denseNoReg.z)) },
            eltwise ((m11 1).transpose * (m11 1)) (denseNoReg.g true denseNoReg.z)) :=
  dense_backward_step_no_reg denseNoReg (m11 1) (m11 1) (m11 1) rfl rfl

/-- Claim C2: in the backward pass, a softmax-contract final activation
(whose derivative is the (out, out, batch) Jacobian) yields the output
error deltaL[j,n] = Σ_i dLoss[i,n] · dAct[j,i,n]; every other final
activation yields the elementwise product of the activation derivative and
the loss derivative. -/
theorem backprop_last_layer_delta_formula {o p n : ℕ} (last : Dense o p n)
    (dLoss : Matrix (Fin o) (Fin n) ℚ) (aPrev : Matrix (Fin p) (Fin n) ℚ) :
    (∀ t : Fin o → Fin o → Fin n → ℚ,
       (backprop_last_layer last true dLoss (ActDeriv.jac t) aPrev).map Prod.snd =
         some (Matrix.of fun j k => ∑ i, dLoss i k * t j i k)) ∧
    (∀ m : Matrix (Fin o) (Fin n) ℚ,
       (backprop_last_layer last false dLoss (ActDeriv.elem m) aPrev).map Prod.snd =
         some (eltwise m dLoss)) :=
  ⟨fun _ => rfl, fun _ => rfl⟩

/-- Counterexample for claim C3: when the first loss evaluation raises (the
oracle returns `none`), `gradient_check` exits with the weight element still
at the perturbed value 0 + 1·1, not at its original value 0 — restoration is
not unconditional. -/
theorem gradient_check_no_restore_cex :
    ((gradient_check (fun _ => none) 1 0).2 = 0 + 1 * 1) ∧ ((0 + 1 * 1 : ℚ) ≠ 0) :=
  ⟨rfl, by norm_num⟩

/-- Claim C3 amended: a `gradient_check` call whose two loss evaluations
both return restores the perturbed element to exactly its original value
and returns the centred-difference gradient; if an evaluation raises, the
exception propagates with the element left at the perturbed value
(original ± eps). -/
theorem gradient_check_restore_behavior (loss : ℚ → Option ℚ) (eps w0 : ℚ) :
    (∀ lplus lminus : ℚ, loss (w0 + 1 * eps) = some lplus →
       loss (w0 + (-1) * eps) = some lminus →
       gradient_check loss eps w0 = (some ((lplus - lminus) / (2 * eps)), w0)) ∧
    (loss (w0 + 1 * eps) = none → gradient_check loss eps w0 = (none, w0 + 1 * eps)) ∧
    (∀ lplus : ℚ, loss (w0 + 1 * eps) = some lplus → loss (w0 + (-1) * eps) = none →
       gradient_check loss eps w0 = (none, w0 + (-1) * eps)) := by
  refine ⟨fun lplus lminus h1 h2 => ?_, fun h1 => ?_, fun lplus h1 h2 => ?_⟩
  · unfold gradient_check
    rw [h1, h2]
    dsimp only
    congr 2
    ring
  · unfold gradient_check
    rw [h1]
  · unfold gradient_check
    rw [h1, h2]

/-- Witness for claim C3 (amended): a completing run on the identity loss
oracle restores the weight element to 0 exactly. -/
theorem gradient_check_restore_behavior_witness :
    gradient_check (fun w => some w) 1 0 =
      (some (((0 + 1 * 1) - (0 + (-1) * 1)) / (2 * 1)), 0) :=
  (gradient_check_restore_behavior (fun w => some w) 1 0).1 (0 + 1 * 1) (0 + (-1) * 1) rfl rfl

/-- Claim C4, code evaluated at the failing input: `fit` called with
`batch_size = 128` and two requested epochs partitions with the hardcoded
size 1000, not with the caller-configured 128 — the `batch_size` argument is
never read by the training loop. -/
theorem fit_batch_size_ignored :
    (partitionSizes ((fit ⟨1, 0⟩ 2 128 0 1).2.flatten) = [1000]) ∧ ((1000 : ℕ) ≠ 128) :=
  ⟨rfl, by decide⟩

/-- Counterexample for claim C5: on a final layer with a bound, consistent
kernel regularizer of nonzero derivative, the source's output-layer phase
sets dw entry (0,0) to 1, while §4.2 steps 3–4 with the regularizer
contribution (the spec-modelled `specLastLayerGrads`) give 3. -/
theorem last_layer_skips_regularizer_cex :
    ((backprop_last_layer denseLast false (m11 1) (ActDeriv.elem (m11 1)) (m11 1)).map
        (fun r => r.1.dw 0 0) = some 1) ∧
    ((specLastLayerGrads denseLast (eltwise (m11 1) (m11 1)) (m11 1)).1 0 0 = 3) ∧
    ((1 : ℚ) ≠ 3) := by
  refine ⟨?_, ?_, by norm_num⟩
  · show some ((1 / ((1 : ℕ) : ℚ)) • (eltwise (m11 1) (m11 1) * (m11 1).transpose) 0 0) = some 1
    congr 1
    simp [eltwise, m11, Matrix.mul_apply, Matrix.smul_apply, Fin.sum_univ_one]
  · show (1 / ((1 : ℕ) : ℚ)) • (eltwise (m11 1) (m11 1) * (m11 1).transpose) 0 0 +
      ((1 / ((1 : ℕ) : ℚ)) • kregOk.deriv) 0 0 = 3
    simp [eltwise, m11, kregOk, Matrix.mul_apply, Matrix.smul_apply, Fin.sum_univ_one]
    norm_num

/-- Claim C5 amended: the output-layer phase computes the final layer's dw
and db from deltaL and the second-to-last layer's cached activation with
batch averaging exactly as in §4.2 step 3 only — no kernel- or
bias-regularizer contribution is ever added there, whatever regularizers are
bound to the final layer. -/
theorem backprop_last_layer_grads {o p n : ℕ} (last : Dense o p n) (isS : Bool)
    (dLoss : Matrix (Fin o) (Fin n) ℚ) (dAct : ActDeriv o n)
    (aPrev : Matrix (Fin p) (Fin n) ℚ) (deltaL : Matrix (Fin o) (Fin n) ℚ)
    (h : lastLayerDelta isS dLoss dAct = some deltaL) :
    backprop_last_layer last isS dLoss dAct aPrev =
      some ({ last with dw := (1 / (n : ℚ)) • (deltaL * aPrev.transpose),
                        db := (1 / (n : ℚ)) • rowSum deltaL }, deltaL) := by
  unfold backprop_last_layer
  rw [h]

/-- Witness for claim C5 (amended): concrete output-layer step on a layer
with a bound kernel regularizer; dw and db carry no regularizer term. -/
theorem backprop_last_layer_grads_witness :
    backprop_last_layer denseLast false (m11 1) (ActDeriv.elem (m11 1)) (m11 1) =
      some ({ denseLast with
              dw := (1 / ((1 : ℕ) : ℚ)) • (eltwise (m11 1) (m11 1) * (m11 1).transpose),
              db := (1 / ((1 : ℕ) : ℚ)) • rowSum (eltwise (m11 1) (m11 1)) },
            eltwise (m11 1) (m11 1)) :=
  backprop_last_layer_grads denseLast false (m11 1) (ActDeriv.elem (m11 1)) (m11 1)
    (eltwise (m11 1) (m11 1)) rfl

/-- Counterexample for claim C6: a layer whose bias regularizer references a
parameter array different from the layer's current bias, yet
`backward_step` completes without any assertion failure — the source checks
consistency only for the kernel regularizer, not symmetrically for the bias
one. -/
theorem bias_regularizer_unchecked_cex :
    (denseReg.bias_regularizer = some bregStale) ∧ (bregStale.param ≠ denseReg.bias) ∧
    ((denseReg.backward_step (m11 1) (m11 1) (m11 1)).isSome = true) := by
  refine ⟨rfl, ?_, by decide⟩
  decide

/-- Claim C6 amended: with a kernel regularizer bound, `backward_step` adds
(1/batch_size)·derivative to dw and asserts the regularizer's referenced
parameter equals the layer's current w (failing call = `none`); with a bias
regularizer bound it adds (1/batch_size)·derivative to db with no
consistency assertion at all. -/
theorem backward_step_regularizers {o i b d : ℕ} (L : Dense o i b)
    (a_next : Matrix (Fin i) (Fin b) ℚ) (w_prev : Matrix (Fin d) (Fin o) ℚ)
    (error_prev : Matrix (Fin d) (Fin b) ℚ)
    (kr : Regularizer o i) (br : Regularizer o 1)
    (hk : L.kernel_regularizer = some kr) (hb : L.bias_regularizer = some br) :
    (kr.param ≠ L.w → L.backward_step a_next w_prev error_prev = none) ∧
    (kr.param = L.w → L.backward_step a_next w_prev error_prev =
       some ({ L with
               dw := (1 / (b : ℚ)) •
                   (eltwise (w_prev.transpose * error_prev) (L.g true L.z) * a_next.transpose) +
                 (1 / (b : ℚ)) • kr.deriv,
               db := (1 / (b : ℚ)) •
                   rowSum (eltwise (w_prev.transpose * error_prev) (L.g true L.z)) +
                 (1 / (b : ℚ)) • br.deriv },
             eltwise (w_prev.transpose * error_prev) (L.g true L.z))) := by
  constructor
  · intro hne
    simp [Dense.backward_step, hk, hb, hne]
  · intro heq
    simp [Dense.backward_step, hk, hb, heq]

/-- Witness for claim C6 (amended): concrete backward step on a layer whose
kernel regularizer is consistent and whose bias regularizer is stale; both
contributions are added and the call completes. -/
theorem backward_step_regularizers_witness :
    denseReg.backward_step (m11 1) (m11 1) (m11 1) =
      some ({ denseReg with
              dw := (1 / ((1 : ℕ) : ℚ)) •
                  (eltwise ((m11 1).transpose * (m11 1)) (denseReg.g true denseReg.z) *
                    (m11 1).transpose) +
                (1 / ((1 : ℕ) : ℚ)) • kregOk.deriv,
              db := (1 / ((1 : ℕ) : ℚ)) •
                  rowSum (eltwise ((m11 1).transpose * (m11 1)) (denseReg.g true denseReg.z)) +
                (1 / ((1 : ℕ) : ℚ)) • bregStale.deriv },
            eltwise ((m11 1).transpose * (m11 1)) (denseReg.g true denseReg.z)) :=
  (backward_step_regularizers denseReg (m11 1) (m11 1) (m11 1) kregOk bregStale rfl rfl).2 rfl

/-- Claim C7: `fit` with `epochs = 1` runs `range(1, 1)`, i.e. no epoch at
all — the trace is empty (no training step, no weight update, no
learning-rate decay) and the state, including the epoch counter, is
returned unchanged. -/
theorem fit_epochs_one (s : FitState) (bs gc M : ℕ) : fit s 1 bs gc M = (s, []) := rfl

/-- Helper: `lrDecays` distributes over list append. -/
theorem lrDecays_append (l1 l2 : List FitEvent) :
    lrDecays (l1 ++ l2) = lrDecays l1 ++ lrDecays l2 := by
  unfold lrDecays
  exact List.filterMap_append l1 l2 _

/-- Helper: the minibatch-loop body never decays the learning rate. -/
theorem lrDecays_minibatch (gc m : ℕ) : lrDecays (minibatchEvents gc m) = [] := by
  by_cases h : gc ≠ 0 ∧ m = 1
  · simp only [minibatchEvents, if_pos h]; rfl
  · simp only [minibatchEvents, if_neg h]; rfl

/-- Helper: a whole minibatch loop never decays the learning rate. -/
theorem lrDecays_flatten (gc : ℕ) (L : List ℕ) :
    lrDecays ((L.map (minibatchEvents gc)).flatten) = [] := by
  induction L with
  | nil => rfl
  | cons a t ih =>
      rw [List.map_cons, List.flatten_cons, lrDecays_append, lrDecays_minibatch, ih]
      rfl

/-- Helper: each executed epoch decays the learning rate exactly once. -/
theorem lrDecays_epoch (gc M : ℕ) (lr : ℚ) (ep : ℕ) :
    lrDecays (epochEvents gc M lr ep) = [lr] := by
  show lrDecays (FitEvent.lrDecay lr :: FitEvent.partitionBatches 1000 :: _) = _
  rw [show ∀ l, lrDecays (FitEvent.lrDecay lr :: FitEvent.partitionBatches 1000 :: l)
      = lr :: lrDecays l from fun l => rfl]
  rw [lrDecays_append, lrDecays_flatten]
  rfl

/-- Helper: the learning rate after `k` executed epochs is the initial rate
times 0.993^k. -/
theorem fitAux_lr (gc M k : ℕ) (s : FitState) :
    (fitAux gc M k s).1.lr = s.lr * (993 / 1000) ^ k := by
  induction k generalizing s with
  | zero => simp [fitAux]
  | succ k ih =>
      rw [fitAux]
      dsimp only
      rw [ih]
      dsimp only
      rw [pow_succ]
      ring

/-- Helper: the per-epoch traces of the epoch loop, with the learning rate
decayed once at the head of each epoch. -/
theorem fitAux_trace (gc M k : ℕ) (s : FitState) :
    (fitAux gc M k s).2 = (List.range k).map
      (fun j => epochEvents gc M (s.lr * (993 / 1000) ^ (j + 1)) (s.epoch + (j + 1))) := by
  induction k generalizing s with
  | zero => simp [fitAux]
  | succ k ih =>
      rw [fitAux]
      dsimp only
      rw [ih, List.range_succ_eq_map, List.map_cons, List.map_map]
      congr 1
      · norm_num
      · apply List.map_congr_left
        intro j hj
        dsimp
        congr 1
        · rw [pow_succ]; ring
        · omega

/-- Claim C8: every executed epoch of `fit` multiplies the learning rate by
exactly 0.993, once, as the first operation of the epoch (before any
minibatch is processed); with a positive initial learning rate the rate
therefore decreases strictly from each epoch to the next and ends at
lr₀ · 0.993^(epochs−1), never reset or increased by the loop. -/
theorem fit_lr_decay_monotone (s : FitState) (e bs gc M : ℕ) (h : 0 < s.lr) :
    ((fit s e bs gc M).2 = (List.range (e - 1)).map
        (fun k => epochEvents gc M (s.lr * (993 / 1000) ^ (k + 1)) (s.epoch + (k + 1)))) ∧
    ((fit s e bs gc M).1.lr = s.lr * (993 / 1000) ^ (e - 1)) ∧
    (∀ gc2 M2 : ℕ, ∀ lr2 : ℚ, ∀ ep2 : ℕ, lrDecays (epochEvents gc2 M2 lr2 ep2) = [lr2]) ∧
    (∀ gc2 M2 : ℕ, ∀ lr2 : ℚ, ∀ ep2 : ℕ,
       (epochEvents gc2 M2 lr2 ep2).head? = some (FitEvent.lrDecay lr2)) ∧
    (∀ k : ℕ, s.lr * (993 / 1000) ^ (k + 1) < s.lr * (993 / 1000) ^ k) := by
  refine ⟨fitAux_trace gc M (e - 1) s, fitAux_lr gc M (e - 1) s,
    fun gc2 M2 lr2 ep2 => lrDecays_epoch gc2 M2 lr2 ep2,
    fun gc2 M2 lr2 ep2 => rfl, fun k => ?_⟩
  have hq : (0 : ℚ) < 993 / 1000 := by norm_num
  have h1 : (993 / 1000 : ℚ) < 1 := by norm_num
  have hp : (0 : ℚ) < s.lr * (993 / 1000) ^ k := mul_pos h (pow_pos hq k)
  calc s.lr * (993 / 1000) ^ (k + 1)
      = (s.lr * (993 / 1000) ^ k) * (993 / 1000) := by rw [pow_succ]; ring
    _ < (s.lr * (993 / 1000) ^ k) * 1 := by
        exact mul_lt_mul_of_pos_left h1 hp
    _ = s.lr * (993 / 1000) ^ k := mul_one _

/-- Witness for claim C8: starting from learning rate 1, one executed epoch
(`epochs = 2`) leaves the rate at 1 · 0.993. -/
theorem fit_lr_decay_monotone_witness :
    (fit ⟨1, 0⟩ 2 0 0 1).1.lr = 1 * (993 / 1000) ^ (2 - 1) :=
  (fit_lr_decay_monotone ⟨1, 0⟩ 2 0 0 1 (by norm_num)).2.1

/-- Helper: no container operation writes the `layers` dict. -/
theorem netStep_dict (s : NetworkShell) (op : NetOp) :
    (netStep s op).layersDict = s.layersDict := by
  cases op <;> rfl

/-- Claim C9: starting from a fresh network, the name-to-layer dict stays
empty under every sequence of container operations (`add` appends only to
the ordered sequence), so the batch-norm detection loop of `compile`
iterates over an empty collection and `batch_norm` is `false` after every
`compile`, regardless of which layers were added. -/
theorem layers_dict_inert :
    (∀ ops : List NetOp, (ops.foldl netStep initNetwork).layersDict = []) ∧
    (∀ (s : NetworkShell) (l : LayerObj),
       netStep s (NetOp.add l) = { s with seq := s.seq ++ [l] }) ∧
    (∀ ops : List NetOp,
       ((ops ++ [NetOp.compile]).foldl netStep initNetwork).batch_norm = some false) := by
  have hdict : ∀ (ops : List NetOp) (s : NetworkShell),
      (ops.foldl netStep s).layersDict = s.layersDict := by
    intro ops
    induction ops with
    | nil => intro s; rfl
    | cons op t ih => intro s; rw [List.foldl_cons, ih, netStep_dict]
  refine ⟨fun ops => hdict ops initNetwork, fun s l => rfl, fun ops => ?_⟩
  rw [List.foldl_append]
  show (netStep ((ops.foldl netStep initNetwork)) NetOp.compile).batch_norm = some false
  rw [show ∀ s : NetworkShell, (netStep s NetOp.compile).batch_norm
      = some (dictDetect (s.layersDict.map Prod.fst)) from fun s => rfl]
  rw [hdict ops initNetwork]
  rfl

/-- Helper: `gradCheckRecords` distributes over list append. -/
theorem gradCheckRecords_append (l1 l2 : List FitEvent) :
    gradCheckRecords (l1 ++ l2) = gradCheckRecords l1 ++ gradCheckRecords l2 := by
  unfold gradCheckRecords
  exact List.filterMap_append l1 l2 _

/-- Helper: the minibatch-loop body runs the stochastic gradient check
exactly when the flag is truthy and the minibatch index is 1, always with
checks = 3 and eps = 10⁻⁶. -/
theorem gradCheckRecords_minibatch (gc m : ℕ) :
    gradCheckRecords (minibatchEvents gc m) =
      if gc ≠ 0 ∧ m = 1 then [(m, 3, (1 / 1000000 : ℚ))] else [] := by
  by_cases h : gc ≠ 0 ∧ m = 1
  · rw [minibatchEvents, if_pos h, if_pos h]; rfl
  · rw [minibatchEvents, if_neg h, if_neg h]; rfl

/-- Helper: over a whole epoch of `M` minibatches, the gradient check runs
exactly once — on minibatch 1 — when the flag is truthy and `M ≥ 2`, and
never otherwise. -/
theorem gradCheckRecords_flatten (gc M : ℕ) :
    gradCheckRecords (((List.range M).map (minibatchEvents gc)).flatten) =
      if gc ≠ 0 ∧ 2 ≤ M then [(1, 3, (1 / 1000000 : ℚ))] else [] := by
  induction M with
  | zero => simp [gradCheckRecords]
  | succ M ih =>
      rw [List.range_succ, List.map_append, List.flatten_append,
        gradCheckRecords_append, ih, List.map_singleton, List.flatten_singleton,
        gradCheckRecords_minibatch]
      by_cases hgc : gc ≠ 0
      · by_cases h1 : M = 1
        · subst h1
          norm_num [hgc]
        · by_cases h2 : 2 ≤ M
          · have h3 : 2 ≤ M + 1 := by omega
            simp [hgc, h1, h2, h3]
          · have h0 : M = 0 := by omega
            subst h0
            norm_num [hgc]
      · simp [hgc]

/-- Helper: the epoch-level trace has the same gradient-check records as its
minibatch loop. -/
theorem gradCheckRecords_epoch (gc M : ℕ) (lr : ℚ) (ep : ℕ) :
    gradCheckRecords (epochEvents gc M lr ep) =
      if gc ≠ 0 ∧ 2 ≤ M then [(1, 3, (1 / 1000000 : ℚ))] else [] := by
  show gradCheckRecords (FitEvent.lrDecay lr :: FitEvent.partitionBatches 1000 :: _) = _
  rw [show ∀ l, gradCheckRecords (FitEvent.lrDecay lr :: FitEvent.partitionBatches 1000 :: l)
      = gradCheckRecords l from fun l => rfl]
  rw [gradCheckRecords_append, gradCheckRecords_flatten]
  simp [gradCheckRecords]

/-- Claim C10: within an epoch of `fit`, the stochastic gradient check runs
exactly when `gradients_to_check_each_epoch` is truthy and the epoch has a
minibatch of index 1 (so never in a single-minibatch epoch), and then only
on minibatch 1, always with checks = 3 and eps = 10⁻⁶ — the flag's numeric
value never reaches the check count, and `gradient_checks` with checks = 3
samples exactly 3 (layer, element) pairs. -/
theorem fit_grad_check_gating (gc M : ℕ) (lr2 : ℚ) (ep2 : ℕ) :
    (gradCheckRecords (epochEvents gc M lr2 ep2) =
       if gc ≠ 0 ∧ 2 ≤ M then [(1, 3, (1 / 1000000 : ℚ))] else []) ∧
    (∀ (sample : ℕ → ℕ × ℕ) (gradOf : ℕ × ℕ → ℚ × ℚ),
       (gradient_checks_runs sample gradOf 3).length = 3) :=
  ⟨gradCheckRecords_epoch gc M lr2 ep2, fun _ _ => rfl⟩

end NeuralNet
